import Mathlib

/-!
Shallow embedding of the fee-grading module (`grading-system.js`) of the
car-buying-assistant repository, together with theorems settling the
specification claims about it.

JavaScript numbers are modelled by `JSNum`: either a rational value or NaN.
Within this module the only non-finite value that can arise is NaN (from
arithmetic on a missing object field, i.e. `undefined`); in every numeric
operation the module performs (`>=`, `<`, `===`, `+`, `-`, `*`, `/`,
`Math.max`, `Math.round`) `undefined` behaves exactly like NaN, so both are
modelled by `JSNum.nan`.  Divisions in the module only ever have the nonzero
divisors 1000, 2000 or a positive list length, so the `x / 0` case (JS
Infinity) is unreachable and mapped to NaN.
-/

namespace Grading

/-- A JavaScript number as used by the grading module: a finite value
(modelled as a rational) or NaN (also standing for `undefined`, which is
observationally identical to NaN in every operation this module performs). -/
inductive JSNum where
  | num (q : ℚ)
  | nan
deriving DecidableEq, Repr

/-- JS `+` on numbers: NaN-propagating addition. -/
def jsAdd : JSNum → JSNum → JSNum
  | JSNum.num a, JSNum.num b => JSNum.num (a + b)
  | _, _ => JSNum.nan

/-- JS `-` on numbers: NaN-propagating subtraction. -/
def jsSub : JSNum → JSNum → JSNum
  | JSNum.num a, JSNum.num b => JSNum.num (a - b)
  | _, _ => JSNum.nan

/-- JS `*` on numbers: NaN-propagating multiplication. -/
def jsMul : JSNum → JSNum → JSNum
  | JSNum.num a, JSNum.num b => JSNum.num (a * b)
  | _, _ => JSNum.nan

/-- JS `/` on numbers.  The module only divides by the nonzero constants
1000 and 2000 and by a positive deal count, so the division-by-zero case
(JS `Infinity`) is unreachable; it is mapped to NaN here. -/
def jsDiv : JSNum → JSNum → JSNum
  | JSNum.num a, JSNum.num b => if b = 0 then JSNum.nan else JSNum.num (a / b)
  | _, _ => JSNum.nan

/-- JS `>=` on numbers: false whenever either operand is NaN. -/
def jsGe : JSNum → JSNum → Bool
  | JSNum.num a, JSNum.num b => decide (b ≤ a)
  | _, _ => false

/-- `Math.max(0, x)`: NaN when `x` is NaN, otherwise the maximum with 0. -/
def jsMax0 : JSNum → JSNum
  | JSNum.num q => JSNum.num (max 0 q)
  | JSNum.nan => JSNum.nan

/-- `Math.round(x)`: round half towards positive infinity, i.e.
`⌊x + 1/2⌋`; NaN is propagated. -/
def jsRound : JSNum → JSNum
  | JSNum.num q => JSNum.num (⌊q + 1/2⌋ : ℤ)
  | JSNum.nan => JSNum.nan

/-- The two fee categories graded by the module (the `feeType` strings
`'excessive'` / `'illegitimate'` and the `GRADING_THRESHOLDS` keys
`'excessive_fees'` / `'illegitimate_fees'`). -/
inductive FeeType where
  | excessive
  | illegitimate
deriving DecidableEq, Repr

/-- One band of `GRADING_THRESHOLDS`: `min`, `max` (`none` models
`Infinity`), and the presentation fields. -/
structure Criteria where
  min : ℚ
  max : Option ℚ
  label : String
  color : String
  description : String
deriving DecidableEq, Repr

/-- `GRADING_THRESHOLDS`, as the ordered association list traversed by
`Object.entries` (insertion order A, B, C, D, F). -/
def GRADING_THRESHOLDS : FeeType → List (String × Criteria)
  | FeeType.excessive =>
      [("A", ⟨0, some 450, "Excellent", "#10b981", "Very low excessive fees"⟩),
       ("B", ⟨450, some 550, "Good", "#3b82f6", "Low excessive fees"⟩),
       ("C", ⟨550, some 1248, "Average", "#f59e0b", "Typical excessive fees"⟩),
       ("D", ⟨1248, some 12767, "Poor", "#ef4444", "High excessive fees"⟩),
       ("F", ⟨12767, none, "Failing", "#dc2626", "Extremely high excessive fees"⟩)]
  | FeeType.illegitimate =>
      [("A", ⟨0, some 451.50, "Excellent", "#10b981", "Very low illegitimate fees"⟩),
       ("B", ⟨451.50, some 1231.25, "Good", "#3b82f6", "Low illegitimate fees"⟩),
       ("C", ⟨1231.25, some 2674.25, "Average", "#f59e0b", "Typical illegitimate fees"⟩),
       ("D", ⟨2674.25, some 19039.45, "Poor", "#ef4444", "High illegitimate fees"⟩),
       ("F", ⟨19039.45, none, "Failing", "#dc2626", "Extremely high illegitimate fees"⟩)]

/-- JS `amount < criteria.max` where `max` may be `Infinity` (`none`):
false when `amount` is NaN, true against `Infinity` for any finite amount. -/
def jsLtOpt : JSNum → Option ℚ → Bool
  | JSNum.nan, _ => false
  | JSNum.num _, none => true
  | JSNum.num a, some b => decide (a < b)

/-- The check of `getGrade`'s loop body:
`amount >= criteria.min && amount < criteria.max`. -/
def criteriaMatch (amount : JSNum) (c : Criteria) : Bool :=
  jsGe amount (JSNum.num c.min) && jsLtOpt amount c.max

/-- The object returned by `getGrade`: grade letter, presentation fields,
and the input amount.  (`gradeDeal` additionally mutates a `feeType` field
onto this object before passing it to `getGradeScore`; in this embedding
the fee type is passed to `getGradeScore` as a separate argument.) -/
structure GradeInfo where
  grade : String
  label : String
  color : String
  description : String
  amount : JSNum
deriving DecidableEq, Repr

/-- `getGrade(amount, feeType)`: return the first threshold band (in
insertion order A..F) with `min <= amount < max`, or the fallback F object
when no band matches (e.g. negative or NaN amounts). -/
def getGrade (amount : JSNum) (feeType : FeeType) : GradeInfo :=
  match (GRADING_THRESHOLDS feeType).find? (fun gc => criteriaMatch amount gc.2) with
  | some (g, c) => ⟨g, c.label, c.color, c.description, amount⟩
  | none => ⟨"F", "Failing", "#dc2626", "Extremely high fees", amount⟩

/-- `getGradeScore(gradeInfo)`.  The source reads `gradeInfo.amount` and
`gradeInfo.feeType` (the latter set by `gradeDeal`); here both are passed
directly.  `amount === 0` returns 100; otherwise
`Math.round(Math.max(0, 100 - (amount / maxThreshold * 100)))` with
`maxThreshold` 1000 for excessive and 2000 for illegitimate fees. -/
def getGradeScore (amount : JSNum) (feeType : FeeType) : JSNum :=
  if amount = JSNum.num 0 then JSNum.num 100
  else
    let maxThreshold : ℚ := match feeType with
      | FeeType.excessive => 1000
      | FeeType.illegitimate => 2000
    jsRound (jsMax0 (jsSub (JSNum.num 100)
      (jsMul (jsDiv amount (JSNum.num maxThreshold)) (JSNum.num 100))))

/-- The object returned by `getGradeFromScore`. -/
structure ScoreGrade where
  grade : String
  label : String
  color : String
deriving DecidableEq, Repr

/-- `getGradeFromScore(score)`: score bands 90/80/70/60, falling through to
F (also for NaN, since every JS comparison with NaN is false). -/
def getGradeFromScore (score : JSNum) : ScoreGrade :=
  if jsGe score (JSNum.num 90) then ⟨"A", "Excellent", "#10b981"⟩
  else if jsGe score (JSNum.num 80) then ⟨"B", "Good", "#3b82f6"⟩
  else if jsGe score (JSNum.num 70) then ⟨"C", "Average", "#f59e0b"⟩
  else if jsGe score (JSNum.num 60) then ⟨"D", "Poor", "#ef4444"⟩
  else ⟨"F", "Failing", "#dc2626"⟩

/-- The `scores` field of `gradeDeal`'s result. -/
structure DealScores where
  excessive : JSNum
  illegitimate : JSNum
  overall : JSNum
deriving DecidableEq, Repr

/-- The object returned by `gradeDeal`. -/
structure DealGrade where
  excessive : GradeInfo
  illegitimate : GradeInfo
  overall : ScoreGrade
  scores : DealScores
deriving DecidableEq, Repr

/-- `gradeDeal(excessiveFees, illegitimateFees)`: per-category descriptive
grades via `getGrade`, per-category scores via `getGradeScore`, and the
overall score `(excessiveScore * 0.4) + (illegitimateScore * 0.6)` — note
the source does NOT round this weighted sum; `getGradeFromScore` is applied
to the unrounded value and the unrounded value is stored in
`scores.overall`. -/
def gradeDeal (excessiveFees illegitimateFees : JSNum) : DealGrade :=
  let excessiveGrade := getGrade excessiveFees FeeType.excessive
  let illegitimateGrade := getGrade illegitimateFees FeeType.illegitimate
  let excessiveScore := getGradeScore excessiveGrade.amount FeeType.excessive
  let illegitimateScore := getGradeScore illegitimateGrade.amount FeeType.illegitimate
  let overallScore := jsAdd (jsMul excessiveScore (JSNum.num 0.4))
                            (jsMul illegitimateScore (JSNum.num 0.6))
  { excessive := excessiveGrade
    illegitimate := illegitimateGrade
    overall := getGradeFromScore overallScore
    scores := ⟨excessiveScore, illegitimateScore, overallScore⟩ }

/-- A per-deal input record for `gradeDealer`, modelled as a JS object that
may or may not carry each of the four field names of interest.  The source
reads `deal.excessive_fees` and `deal.illegitimate_fees`; the spec's input
contract instead names `excessiveFees` / `illegitimateFees`, so both
spellings are carried to state claims about field-name sensitivity.
A missing field (`none`) reads as `undefined`, i.e. `JSNum.nan` here. -/
structure DealRecord where
  excessiveFees : Option ℚ := none
  illegitimateFees : Option ℚ := none
  excessive_fees : Option ℚ := none
  illegitimate_fees : Option ℚ := none
deriving DecidableEq, Repr

/-- JS property read: a present numeric field yields its value, a missing
field yields `undefined`, which behaves as NaN in this module. -/
def readNum : Option ℚ → JSNum
  | some q => JSNum.num q
  | none => JSNum.nan

/-- The `gradeDistribution` object `{A:0,B:0,C:0,D:0,F:0}`. -/
structure GradeDistribution where
  A : ℕ
  B : ℕ
  C : ℕ
  D : ℕ
  F : ℕ
deriving DecidableEq, Repr

/-- `gradeDistribution[grade]++`: increment the counter for the given
letter.  `getGradeFromScore` only ever returns A, B, C, D or F, so the
fall-through (which in JS would write a NaN entry) is unreachable. -/
def bumpDistribution (dist : GradeDistribution) (grade : String) : GradeDistribution :=
  if grade = "A" then { dist with A := dist.A + 1 }
  else if grade = "B" then { dist with B := dist.B + 1 }
  else if grade = "C" then { dist with C := dist.C + 1 }
  else if grade = "D" then { dist with D := dist.D + 1 }
  else if grade = "F" then { dist with F := dist.F + 1 }
  else dist

/-- `Number.prototype.toFixed(1)` for the values reachable here: NaN
renders as "NaN"; a finite value is rounded to one decimal digit, on a tie
to the larger candidate of the absolute value (ECMA-262 Number.toFixed). -/
def jsToFixed1 : JSNum → String
  | JSNum.nan => "NaN"
  | JSNum.num q =>
      let n : ℕ := (⌊|q| * 10 + 1/2⌋ : ℤ).toNat
      (if q < 0 then "-" else "") ++ toString (n / 10) ++ "." ++ toString (n % 10)

/-- `generateDealerExplanation(grade, dealCount, avgScore, distribution)`:
the deterministic template string (the `grade` argument is unused by the
source body).  The multi-line template literal's embedded newlines and
indentation are reproduced verbatim. -/
def generateDealerExplanation (dealCount : ℕ) (avgScore : JSNum)
    (distribution : GradeDistribution) : String :=
  let totalDeals := distribution.A + distribution.B + distribution.C +
    distribution.D + distribution.F
  let topGrades := distribution.A + distribution.B
  let topGradePercentage : ℤ :=
    if totalDeals > 0 then ⌊(topGrades : ℚ) / (totalDeals : ℚ) * 100 + 1/2⌋ else 0
  "Based on " ++ toString dealCount ++
    " analysis-stage deals with an average score of " ++ jsToFixed1 avgScore ++
    "/100. \n    " ++ toString topGradePercentage ++
    "% of deals received A or B grades. \n    Grade distribution: A(" ++
    toString distribution.A ++ "), B(" ++ toString distribution.B ++
    "), C(" ++ toString distribution.C ++ "), D(" ++ toString distribution.D ++
    "), F(" ++ toString distribution.F ++ ")."

/-- The `averageScores` field of `gradeDealer`'s result. -/
structure AvgScores where
  excessive : JSNum
  illegitimate : JSNum
  overall : JSNum
deriving DecidableEq, Repr

/-- The `averageFees` field of `gradeDealer`'s result. -/
structure AvgFees where
  excessive : JSNum
  illegitimate : JSNum
deriving DecidableEq, Repr

/-- The object returned by `gradeDealer`.  The empty-input sentinel object
lacks the `averageFees`, `dealGrades` and `gradeDistribution` properties,
hence those fields are `Option`s (`none` = property absent). -/
structure DealerGrade where
  grade : String
  label : String
  color : String
  dealCount : ℕ
  averageScores : AvgScores
  averageFees : Option AvgFees
  dealGrades : Option (List DealGrade)
  gradeDistribution : Option GradeDistribution
  explanation : String
deriving DecidableEq, Repr

/-- `gradeDealer(deals)`: sentinel `N/A` object for an empty list (the
`!deals` null-check cannot fire in this embedding since a Lean list is
never null); otherwise grade each deal via
`gradeDeal(deal.excessive_fees, deal.illegitimate_fees)` (note the
snake_case property reads), average the three scores and the raw fee
amounts arithmetically, map the mean overall score to a letter, and count
per-letter overall grades. -/
def gradeDealer (deals : List DealRecord) : DealerGrade :=
  if deals.isEmpty then
    { grade := "N/A"
      label := "No Data"
      color := "#64748b"
      dealCount := 0
      averageScores := ⟨JSNum.num 0, JSNum.num 0, JSNum.num 0⟩
      averageFees := none
      dealGrades := none
      gradeDistribution := none
      explanation := "No analysis-stage deals available for grading" }
  else
    let dealGrades := deals.map (fun deal =>
      gradeDeal (readNum deal.excessive_fees) (readNum deal.illegitimate_fees))
    let n : JSNum := JSNum.num dealGrades.length
    let avgExcessiveScore :=
      jsDiv (dealGrades.foldl (fun sum d => jsAdd sum d.scores.excessive) (JSNum.num 0)) n
    let avgIllegitimateScore :=
      jsDiv (dealGrades.foldl (fun sum d => jsAdd sum d.scores.illegitimate) (JSNum.num 0)) n
    let avgOverallScore :=
      jsDiv (dealGrades.foldl (fun sum d => jsAdd sum d.scores.overall) (JSNum.num 0)) n
    let overallGrade := getGradeFromScore avgOverallScore
    let gradeDistribution :=
      dealGrades.foldl (fun dist d => bumpDistribution dist d.overall.grade) ⟨0, 0, 0, 0, 0⟩
    let avgExcessiveFees :=
      jsDiv (deals.foldl (fun sum d => jsAdd sum (readNum d.excessive_fees)) (JSNum.num 0))
        (JSNum.num deals.length)
    let avgIllegitimateFees :=
      jsDiv (deals.foldl (fun sum d => jsAdd sum (readNum d.illegitimate_fees)) (JSNum.num 0))
        (JSNum.num deals.length)
    { grade := overallGrade.grade
      label := overallGrade.label
      color := overallGrade.color
      dealCount := deals.length
      averageScores := ⟨avgExcessiveScore, avgIllegitimateScore, avgOverallScore⟩
      averageFees := some ⟨avgExcessiveFees, avgIllegitimateFees⟩
      dealGrades := some dealGrades
      gradeDistribution := some gradeDistribution
      explanation := generateDealerExplanation deals.length avgOverallScore gradeDistribution }

/-! ### Spec-side restatements

The following definitions restate formulas in the words of the
specification (not translated from the source); the theorems below relate
them to the embedded source functions. -/

/-- The category ceiling named by the spec: 1000 for excessive fees,
2000 for illegitimate fees. -/
def ceilingOf : FeeType → ℚ
  | FeeType.excessive => 1000
  | FeeType.illegitimate => 2000

/-- Spec formula for a category score:
`max(0, 100 - (amount / categoryCeiling * 100))` rounded to the nearest
integer (JS rounding: half towards positive infinity). -/
def categoryScoreSpec (ceiling amount : ℚ) : ℤ :=
  ⌊max 0 (100 - amount / ceiling * 100) + 1/2⌋

/-- Spec formula for the overall deal score before any further rounding:
`excessiveScore * 0.4 + illegitimateScore * 0.6` over the two individually
rounded category scores. -/
def overallScoreSpec (a b : ℚ) : ℚ :=
  (categoryScoreSpec 1000 a : ℚ) * 0.4 + (categoryScoreSpec 2000 b : ℚ) * 0.6

/-- Spec letter mapping from an overall score:
`>=90 → A`, `>=80 → B`, `>=70 → C`, `>=60 → D`, else `F`. -/
def letterOfScoreSpec (s : ℚ) : String :=
  if 90 ≤ s then "A"
  else if 80 ≤ s then "B"
  else if 70 ≤ s then "C"
  else if 60 ≤ s then "D"
  else "F"

/-- Spec currency bands for the descriptive excessive-fees letter:
A on [0,450), B on [450,550), C on [550,1248), D on [1248,12767),
F at ≥ 12767 (intended for non-negative amounts). -/
def excessiveBandSpec (q : ℚ) : String :=
  if q < 450 then "A"
  else if q < 550 then "B"
  else if q < 1248 then "C"
  else if q < 12767 then "D"
  else "F"

/-- Spec currency bands for the descriptive illegitimate-fees letter:
A on [0,451.50), B on [451.50,1231.25), C on [1231.25,2674.25),
D on [2674.25,19039.45), F at ≥ 19039.45 (intended for non-negative
amounts). -/
def illegitimateBandSpec (q : ℚ) : String :=
  if q < 451.50 then "A"
  else if q < 1231.25 then "B"
  else if q < 2674.25 then "C"
  else if q < 19039.45 then "D"
  else "F"

/-- Build `gradeDealer` input records carrying the fee totals in the
`excessive_fees` / `illegitimate_fees` fields the source reads. -/
def dealsOfPairs (l : List (ℚ × ℚ)) : List DealRecord :=
  l.map fun p => { excessive_fees := some p.1, illegitimate_fees := some p.2 }

/-- Spec mean overall score of a dealer's deals. -/
def meanOverallSpec (l : List (ℚ × ℚ)) : ℚ :=
  (l.map fun p => overallScoreSpec p.1 p.2).sum / l.length

/-! ### Bridge lemmas between the embedding and the spec formulas -/

/-- `getGrade` stores the input amount unchanged in the returned object. -/
theorem getGrade_amount (amount : JSNum) (feeType : FeeType) :
    (getGrade amount feeType).amount = amount := by
  unfold getGrade
  rcases h : (GRADING_THRESHOLDS feeType).find? (fun gc => criteriaMatch amount gc.2) with
    _ | ⟨g, c⟩ <;> rw [h]

/-- On a finite amount, `getGradeScore` computes exactly the spec formula
`round(max(0, 100 - amount/ceiling*100))` (the `amount === 0` shortcut in
the source agrees with the formula there). -/
theorem getGradeScore_eq_spec (feeType : FeeType) (a : ℚ) :
    getGradeScore (JSNum.num a) feeType =
      JSNum.num (categoryScoreSpec (ceilingOf feeType) a) := by
  by_cases h : a = 0 <;>
    cases feeType <;>
      simp [getGradeScore, ceilingOf, categoryScoreSpec, jsDiv, jsMul, jsSub, jsMax0,
        jsRound, h] <;>
      norm_num

/-- `getGradeFromScore` on a finite score implements the spec letter
bands. -/
theorem getGradeFromScore_eq_spec (s : ℚ) :
    (getGradeFromScore (JSNum.num s)).grade = letterOfScoreSpec s := by
  simp only [getGradeFromScore, letterOfScoreSpec, jsGe, decide_eq_true_eq]
  split_ifs <;> rfl

/-- The three scores of `gradeDeal` on finite inputs, in terms of the spec
formulas. -/
theorem gradeDeal_scores_eq_spec (a b : ℚ) :
    (gradeDeal (JSNum.num a) (JSNum.num b)).scores =
      ⟨JSNum.num (categoryScoreSpec 1000 a), JSNum.num (categoryScoreSpec 2000 b),
        JSNum.num (overallScoreSpec a b)⟩ := by
  simp [gradeDeal, getGrade_amount, getGradeScore_eq_spec, ceilingOf, jsAdd, jsMul,
    overallScoreSpec]

/-- The overall letter of `gradeDeal` on finite inputs is the spec letter
of the unrounded weighted score sum. -/
theorem gradeDeal_overall_eq_spec (a b : ℚ) :
    (gradeDeal (JSNum.num a) (JSNum.num b)).overall.grade =
      letterOfScoreSpec (overallScoreSpec a b) := by
  have h := gradeDeal_scores_eq_spec a b
  simp only [gradeDeal] at h ⊢
  rw [show (getGradeFromScore (jsAdd
      (jsMul (getGradeScore (getGrade (JSNum.num a) FeeType.excessive).amount FeeType.excessive) (JSNum.num 0.4))
      (jsMul (getGradeScore (getGrade (JSNum.num b) FeeType.illegitimate).amount FeeType.illegitimate) (JSNum.num 0.6)))).grade =
      letterOfScoreSpec (overallScoreSpec a b) from ?_]
  have hov : jsAdd
      (jsMul (getGradeScore (getGrade (JSNum.num a) FeeType.excessive).amount FeeType.excessive) (JSNum.num 0.4))
      (jsMul (getGradeScore (getGrade (JSNum.num b) FeeType.illegitimate).amount FeeType.illegitimate) (JSNum.num 0.6)) =
      JSNum.num (overallScoreSpec a b) := by
    simp [getGrade_amount, getGradeScore_eq_spec, ceilingOf, jsAdd, jsMul, overallScoreSpec]
  rw [hov, getGradeFromScore_eq_spec]

/-- Summing finite JS numbers with `jsAdd` is rational summation. -/
theorem foldl_jsAdd_num {α : Type} (f : α → ℚ) (l : List α) (i : ℚ) :
    l.foldl (fun sum d => jsAdd sum (JSNum.num (f d))) (JSNum.num i) =
      JSNum.num (i + (l.map f).sum) := by
  induction l generalizing i with
  | nil => simp
  | cons x xs ih =>
      rw [List.foldl_cons, show jsAdd (JSNum.num i) (JSNum.num (f x)) = JSNum.num (i + f x)
        from rfl, ih, List.map_cons, List.sum_cons, add_assoc]

/-- Folding `bumpDistribution` over a list of letters counts, per letter in
A..F, the occurrences of that letter (letters outside A..F are ignored by
`bumpDistribution` and counted by none of the five counters). -/
theorem foldl_bumpDistribution {α : Type} (g : α → String) (l : List α)
    (d : GradeDistribution) :
    l.foldl (fun dist x => bumpDistribution dist (g x)) d =
      ⟨d.A + (l.map g).count "A", d.B + (l.map g).count "B",
       d.C + (l.map g).count "C", d.D + (l.map g).count "D",
       d.F + (l.map g).count "F"⟩ := by
  induction l generalizing d with
  | nil => simp
  | cons x xs ih =>
      simp only [List.foldl_cons, List.map_cons, List.count_cons, ih]
      unfold bumpDistribution
      split_ifs with h1 h2 h3 h4 h5 <;>
        simp_all [beq_iff_eq, Nat.add_comm, Nat.add_assoc, Nat.add_left_comm]

/-- The spec category score is antitone in the amount (for a positive
ceiling). -/
theorem categoryScoreSpec_antitone {c : ℚ} (hc : 0 < c) {a1 a2 : ℚ} (h : a1 ≤ a2) :
    categoryScoreSpec c a2 ≤ categoryScoreSpec c a1 := by
  unfold categoryScoreSpec
  apply Int.floor_le_floor
  gcongr

/-- The spec category score of a non-negative amount lies in [0, 100]. -/
theorem categoryScoreSpec_bounds {c a : ℚ} (hc : 0 < c) (ha : 0 ≤ a) :
    0 ≤ categoryScoreSpec c a ∧ categoryScoreSpec c a ≤ 100 := by
  unfold categoryScoreSpec
  constructor
  · apply Int.le_floor.mpr
    have : (0 : ℚ) ≤ max 0 (100 - a / c * 100) := le_max_left _ _
    push_cast
    linarith
  · have hle : max 0 (100 - a / c * 100) + 1/2 ≤ (201 : ℚ) / 2 := by
      have h1 : 0 ≤ a / c * 100 := by positivity
      have h2 : max 0 (100 - a / c * 100) ≤ 100 := by
        apply max_le (by norm_num) (by linarith)
      linarith
    calc ⌊max 0 (100 - a / c * 100) + 1/2⌋ ≤ ⌊(201 : ℚ) / 2⌋ := Int.floor_le_floor hle
    _ = 100 := by
      rw [Int.floor_eq_iff]
      norm_num

/-- Evaluation of the spec category score when the unclamped value is
non-negative. -/
theorem categoryScoreSpec_eval {c a : ℚ} (n : ℤ) (hx : 0 ≤ 100 - a / c * 100)
    (h1 : (n : ℚ) ≤ 100 - a / c * 100 + 1/2) (h2 : 100 - a / c * 100 + 1/2 < n + 1) :
    categoryScoreSpec c a = n := by
  unfold categoryScoreSpec
  rw [max_eq_right hx]
  exact Int.floor_eq_iff.mpr ⟨h1, h2⟩

/-- Evaluation of the spec category score when the formula clamps to 0. -/
theorem categoryScoreSpec_eval_clamped {c a : ℚ} (hx : 100 - a / c * 100 ≤ 0) :
    categoryScoreSpec c a = 0 := by
  unfold categoryScoreSpec
  rw [max_eq_left hx]
  exact Int.floor_eq_iff.mpr ⟨by norm_num, by norm_num⟩

/-- `gradeDealer` on a non-empty list of deals given as explicit fee-total
pairs (carried in the snake_case fields the source reads): the deal count,
the three arithmetic score means, the dealer letter obtained from the mean
overall score, the per-letter histogram of the per-deal overall grades,
and the per-deal grades, all in terms of the spec formulas. -/
theorem gradeDealer_eq_spec (l : List (ℚ × ℚ)) (hl : l ≠ []) :
    (gradeDealer (dealsOfPairs l)).dealCount = l.length ∧
    (gradeDealer (dealsOfPairs l)).averageScores =
      ⟨JSNum.num ((l.map fun p => ((categoryScoreSpec 1000 p.1 : ℤ) : ℚ)).sum / l.length),
       JSNum.num ((l.map fun p => ((categoryScoreSpec 2000 p.2 : ℤ) : ℚ)).sum / l.length),
       JSNum.num (meanOverallSpec l)⟩ ∧
    (gradeDealer (dealsOfPairs l)).grade = letterOfScoreSpec (meanOverallSpec l) ∧
    (gradeDealer (dealsOfPairs l)).gradeDistribution =
      some ⟨((l.map fun p => letterOfScoreSpec (overallScoreSpec p.1 p.2)).count "A"),
            ((l.map fun p => letterOfScoreSpec (overallScoreSpec p.1 p.2)).count "B"),
            ((l.map fun p => letterOfScoreSpec (overallScoreSpec p.1 p.2)).count "C"),
            ((l.map fun p => letterOfScoreSpec (overallScoreSpec p.1 p.2)).count "D"),
            ((l.map fun p => letterOfScoreSpec (overallScoreSpec p.1 p.2)).count "F")⟩ ∧
    (gradeDealer (dealsOfPairs l)).dealGrades =
      some (l.map fun p => gradeDeal (JSNum.num p.1) (JSNum.num p.2)) := by
  have hne : dealsOfPairs l ≠ [] := by
    simp [dealsOfPairs, hl]
  have hempty : (dealsOfPairs l).isEmpty = false := by
    cases h : dealsOfPairs l with
    | nil => exact absurd h hne
    | cons a t => rfl
  have hdg : (dealsOfPairs l).map (fun deal =>
      gradeDeal (readNum deal.excessive_fees) (readNum deal.illegitimate_fees)) =
      l.map fun p => gradeDeal (JSNum.num p.1) (JSNum.num p.2) := by
    simp [dealsOfPairs, List.map_map, Function.comp, readNum]
  have hn0 : ((l.length : ℚ)) ≠ 0 :=
    Nat.cast_ne_zero.mpr (fun h => hl (List.length_eq_zero.mp h))
  have hfe : (l.map fun p => gradeDeal (JSNum.num p.1) (JSNum.num p.2)).foldl
      (fun sum d => jsAdd sum d.scores.excessive) (JSNum.num 0) =
      JSNum.num ((l.map fun p => ((categoryScoreSpec 1000 p.1 : ℤ) : ℚ)).sum) := by
    rw [List.foldl_map,
      show (fun (sum : JSNum) (p : ℚ × ℚ) =>
          jsAdd sum (gradeDeal (JSNum.num p.1) (JSNum.num p.2)).scores.excessive) =
        fun sum p => jsAdd sum (JSNum.num ((categoryScoreSpec 1000 p.1 : ℤ) : ℚ)) from by
          funext sum p
          rw [gradeDeal_scores_eq_spec],
      foldl_jsAdd_num, zero_add]
  have hfi : (l.map fun p => gradeDeal (JSNum.num p.1) (JSNum.num p.2)).foldl
      (fun sum d => jsAdd sum d.scores.illegitimate) (JSNum.num 0) =
      JSNum.num ((l.map fun p => ((categoryScoreSpec 2000 p.2 : ℤ) : ℚ)).sum) := by
    rw [List.foldl_map,
      show (fun (sum : JSNum) (p : ℚ × ℚ) =>
          jsAdd sum (gradeDeal (JSNum.num p.1) (JSNum.num p.2)).scores.illegitimate) =
        fun sum p => jsAdd sum (JSNum.num ((categoryScoreSpec 2000 p.2 : ℤ) : ℚ)) from by
          funext sum p
          rw [gradeDeal_scores_eq_spec],
      foldl_jsAdd_num, zero_add]
  have hfo : (l.map fun p => gradeDeal (JSNum.num p.1) (JSNum.num p.2)).foldl
      (fun sum d => jsAdd sum d.scores.overall) (JSNum.num 0) =
      JSNum.num ((l.map fun p => overallScoreSpec p.1 p.2).sum) := by
    rw [List.foldl_map,
      show (fun (sum : JSNum) (p : ℚ × ℚ) =>
          jsAdd sum (gradeDeal (JSNum.num p.1) (JSNum.num p.2)).scores.overall) =
        fun sum p => jsAdd sum (JSNum.num (overallScoreSpec p.1 p.2)) from by
          funext sum p
          rw [gradeDeal_scores_eq_spec],
      foldl_jsAdd_num, zero_add]
  have hfd : (l.map fun p => gradeDeal (JSNum.num p.1) (JSNum.num p.2)).foldl
      (fun dist d => bumpDistribution dist d.overall.grade) ⟨0, 0, 0, 0, 0⟩ =
      ⟨((l.map fun p => letterOfScoreSpec (overallScoreSpec p.1 p.2)).count "A"),
       ((l.map fun p => letterOfScoreSpec (overallScoreSpec p.1 p.2)).count "B"),
       ((l.map fun p => letterOfScoreSpec (overallScoreSpec p.1 p.2)).count "C"),
       ((l.map fun p => letterOfScoreSpec (overallScoreSpec p.1 p.2)).count "D"),
       ((l.map fun p => letterOfScoreSpec (overallScoreSpec p.1 p.2)).count "F")⟩ := by
    rw [List.foldl_map,
      show (fun (dist : GradeDistribution) (p : ℚ × ℚ) =>
          bumpDistribution dist (gradeDeal (JSNum.num p.1) (JSNum.num p.2)).overall.grade) =
        fun dist p => bumpDistribution dist (letterOfScoreSpec (overallScoreSpec p.1 p.2)) from by
          funext dist p
          rw [gradeDeal_overall_eq_spec],
      foldl_bumpDistribution]
    simp
  simp only [gradeDealer, hempty, Bool.false_eq_true, if_false, hdg, hfe, hfi, hfo, hfd,
    List.length_map]
  refine ⟨?_, ?_, ?_, ?_, ?_⟩ <;>
    first
      | trivial
      | (simp [dealsOfPairs]; done)
      | (simp only [jsDiv, hn0, if_false, meanOverallSpec, getGradeFromScore_eq_spec]; done)

/-! ### Claim theorems -/

/-- C1 (counterexample): at `gradeDeal(110, 200)` the category scores are
89 and 90, the rounded weighted sum `round(89*0.4 + 90*0.6)` the claim
prescribes is 90 with letter A, but the returned `scores.overall` is the
unrounded 89.6 and the returned letter is B: the claim's equality fails. -/
theorem overall_score_rounding_counterexample :
    (gradeDeal (JSNum.num 110) (JSNum.num 200)).scores =
      ⟨JSNum.num 89, JSNum.num 90, JSNum.num (448/5)⟩ ∧
    jsRound (JSNum.num (448/5)) = JSNum.num 90 ∧
    (gradeDeal (JSNum.num 110) (JSNum.num 200)).scores.overall ≠ JSNum.num 90 ∧
    (gradeDeal (JSNum.num 110) (JSNum.num 200)).overall.grade = "B" ∧
    (getGradeFromScore (JSNum.num 90)).grade = "A" := by
  have he : categoryScoreSpec 1000 110 = 89 :=
    categoryScoreSpec_eval 89 (by norm_num) (by norm_num) (by norm_num)
  have hi : categoryScoreSpec 2000 200 = 90 :=
    categoryScoreSpec_eval 90 (by norm_num) (by norm_num) (by norm_num)
  have hov : overallScoreSpec 110 200 = 448/5 := by
    unfold overallScoreSpec
    rw [he, hi]
    norm_num
  refine ⟨?_, ?_, ?_, ?_, ?_⟩
  · rw [gradeDeal_scores_eq_spec, he, hi, hov]
    norm_num
  · show JSNum.num ((⌊(448 : ℚ)/5 + 1/2⌋ : ℤ) : ℚ) = JSNum.num 90
    rw [show (⌊(448 : ℚ)/5 + 1/2⌋ : ℤ) = 90 from Int.floor_eq_iff.mpr ⟨by norm_num, by norm_num⟩]
    norm_num
  · rw [gradeDeal_scores_eq_spec]
    show JSNum.num (overallScoreSpec 110 200) ≠ JSNum.num 90
    rw [hov]
    simp only [ne_eq, JSNum.num.injEq]
    norm_num
  · rw [gradeDeal_overall_eq_spec, hov]
    norm_num [letterOfScoreSpec]
  · rw [getGradeFromScore_eq_spec]
    norm_num [letterOfScoreSpec]

/-- C1 (amended): for every pair of non-negative fee totals, `gradeDeal`
computes the overall score as the UNROUNDED weighted sum
`excessiveScore * 0.4 + illegitimateScore * 0.6` of the individually
rounded category scores; `scores.overall` equals this unrounded sum and
the overall letter grade is derived from it. -/
theorem overall_score_unrounded_weighted_sum (a b : ℚ) (ha : 0 ≤ a) (hb : 0 ≤ b) :
    (gradeDeal (JSNum.num a) (JSNum.num b)).scores.overall =
      JSNum.num (overallScoreSpec a b) ∧
    (gradeDeal (JSNum.num a) (JSNum.num b)).overall.grade =
      letterOfScoreSpec (overallScoreSpec a b) := by
  refine ⟨?_, gradeDeal_overall_eq_spec a b⟩
  rw [gradeDeal_scores_eq_spec a b]

/-- C1 (witness): the amended claim at the concrete input (110, 200). -/
theorem overall_score_unrounded_weighted_sum_witness :
    (0 : ℚ) ≤ 110 ∧ (0 : ℚ) ≤ 200 ∧
    ((gradeDeal (JSNum.num 110) (JSNum.num 200)).scores.overall =
        JSNum.num (overallScoreSpec 110 200) ∧
      (gradeDeal (JSNum.num 110) (JSNum.num 200)).overall.grade =
        letterOfScoreSpec (overallScoreSpec 110 200)) :=
  ⟨by norm_num, by norm_num,
    overall_score_unrounded_weighted_sum 110 200 (by norm_num) (by norm_num)⟩

/-- C2 (counterexample): `gradeDealer` reads the snake_case properties
`excessive_fees` / `illegitimate_fees`, so a record carrying the fee
totals only under the camelCase names `excessiveFees` / `illegitimateFees`
reads as undefined: the zero-fee deal grades F (via NaN scores), not A,
and the distribution is {A:0,...,F:1}, refuting the claimed A grade and
{A:1,...} distribution. -/
theorem dealer_camelCase_fields_counterexample :
    (gradeDealer [{ excessiveFees := some 0, illegitimateFees := some 0 }]).grade = "F" ∧
    (gradeDealer [{ excessiveFees := some 0, illegitimateFees := some 0 }]).grade ≠ "A" ∧
    (gradeDealer [{ excessiveFees := some 0, illegitimateFees := some 0 }]).dealCount = 1 ∧
    (gradeDealer [{ excessiveFees := some 0, illegitimateFees := some 0 }]).gradeDistribution =
      some ⟨0, 0, 0, 0, 1⟩ ∧
    (gradeDealer [{ excessiveFees := some 0, illegitimateFees := some 0 }]).gradeDistribution ≠
      some ⟨1, 0, 0, 0, 0⟩ := by
  refine ⟨by decide, by decide, by decide, by decide, by decide⟩

/-- C2 (amended): dealer grading reads the per-deal fields
`excessive_fees` and `illegitimate_fees`; with the zero fee totals under
those names, `gradeDealer([{excessive_fees:0, illegitimate_fees:0}])`
yields overall grade "A", dealCount 1 and grade distribution
{A:1,B:0,C:0,D:0,F:0}. -/
theorem dealer_snake_case_zero_fee_deal_grades_A :
    (gradeDealer [{ excessive_fees := some 0, illegitimate_fees := some 0 }]).grade = "A" ∧
    (gradeDealer [{ excessive_fees := some 0, illegitimate_fees := some 0 }]).dealCount = 1 ∧
    (gradeDealer [{ excessive_fees := some 0, illegitimate_fees := some 0 }]).gradeDistribution =
      some ⟨1, 0, 0, 0, 0⟩ := by
  have h := gradeDealer_eq_spec [(0, 0)] (by simp)
  rw [show dealsOfPairs [((0 : ℚ), (0 : ℚ))] =
    [{ excessive_fees := some 0, illegitimate_fees := some 0 }] from rfl] at h
  obtain ⟨h1, _, h3, h4, _⟩ := h
  have hov : overallScoreSpec 0 0 = 100 := by
    unfold overallScoreSpec
    rw [categoryScoreSpec_eval 100 (by norm_num) (by norm_num) (by norm_num),
      categoryScoreSpec_eval 100 (by norm_num) (by norm_num) (by norm_num)]
    norm_num
  have hmean : meanOverallSpec [(0, 0)] = 100 := by
    unfold meanOverallSpec
    simp [hov]
  have hA : letterOfScoreSpec 100 = "A" := by norm_num [letterOfScoreSpec]
  refine ⟨?_, h1, ?_⟩
  · rw [h3, hmean, hA]
  · rw [h4]
    simp [hov, hA]

/-- C3: for every non-negative amount the category score equals
`max(0, 100 - (amount / categoryCeiling * 100))` rounded to the nearest
integer, with ceiling 1000 for excessive and 2000 for illegitimate fees;
an amount of 0 scores exactly 100, and any amount at or above the
category's ceiling scores exactly 0. -/
theorem category_score_formula (q : ℚ) (hq : 0 ≤ q) :
    (getGradeScore (JSNum.num q) FeeType.excessive =
        JSNum.num (categoryScoreSpec 1000 q) ∧
      getGradeScore (JSNum.num q) FeeType.illegitimate =
        JSNum.num (categoryScoreSpec 2000 q)) ∧
    (q = 0 →
      getGradeScore (JSNum.num q) FeeType.excessive = JSNum.num 100 ∧
      getGradeScore (JSNum.num q) FeeType.illegitimate = JSNum.num 100) ∧
    (1000 ≤ q → getGradeScore (JSNum.num q) FeeType.excessive = JSNum.num 0) ∧
    (2000 ≤ q → getGradeScore (JSNum.num q) FeeType.illegitimate = JSNum.num 0) := by
  have hexc := getGradeScore_eq_spec FeeType.excessive q
  have hill := getGradeScore_eq_spec FeeType.illegitimate q
  simp only [ceilingOf] at hexc hill
  refine ⟨⟨hexc, hill⟩, ?_, ?_, ?_⟩
  · rintro rfl
    have h1 : categoryScoreSpec 1000 0 = 100 :=
      categoryScoreSpec_eval 100 (by norm_num) (by norm_num) (by norm_num)
    have h2 : categoryScoreSpec 2000 0 = 100 :=
      categoryScoreSpec_eval 100 (by norm_num) (by norm_num) (by norm_num)
    rw [hexc, hill, h1, h2]
    norm_num
  · intro h
    rw [hexc, categoryScoreSpec_eval_clamped (by linarith)]
    norm_num
  · intro h
    rw [hill, categoryScoreSpec_eval_clamped (by linarith)]
    norm_num

/-- C3 (witness): the formula, the in-range instance 0, and the at-ceiling
instances evaluated at the amount 2000 (which is at or above both
ceilings). -/
theorem category_score_formula_witness :
    (0 : ℚ) ≤ 2000 ∧
    ((getGradeScore (JSNum.num 2000) FeeType.excessive =
        JSNum.num (categoryScoreSpec 1000 2000) ∧
      getGradeScore (JSNum.num 2000) FeeType.illegitimate =
        JSNum.num (categoryScoreSpec 2000 2000)) ∧
    ((2000 : ℚ) = 0 →
      getGradeScore (JSNum.num 2000) FeeType.excessive = JSNum.num 100 ∧
      getGradeScore (JSNum.num 2000) FeeType.illegitimate = JSNum.num 100) ∧
    ((1000 : ℚ) ≤ 2000 → getGradeScore (JSNum.num 2000) FeeType.excessive = JSNum.num 0) ∧
    ((2000 : ℚ) ≤ 2000 → getGradeScore (JSNum.num 2000) FeeType.illegitimate = JSNum.num 0)) :=
  ⟨by norm_num, category_score_formula 2000 (by norm_num)⟩

/-- C4: for every non-empty sequence of per-deal fee-total records,
`gradeDealer` grades each deal with `gradeDeal`, returns the arithmetic
means of the per-deal excessive, illegitimate and overall scores, maps the
mean overall score to the dealer letter via the overall score bands, and
returns a histogram of the per-deal overall letter grades; in particular
the dealer with deals [(0,0),(1000,2000)] has per-deal overall scores
[100, 0], mean overall score 50, dealer letter F and distribution
{A:1,B:0,C:0,D:0,F:1}. -/
theorem dealer_aggregation_means_histogram :
    (∀ l : List (ℚ × ℚ), l ≠ [] →
      (gradeDealer (dealsOfPairs l)).dealCount = l.length ∧
      (gradeDealer (dealsOfPairs l)).averageScores =
        ⟨JSNum.num ((l.map fun p => ((categoryScoreSpec 1000 p.1 : ℤ) : ℚ)).sum / l.length),
         JSNum.num ((l.map fun p => ((categoryScoreSpec 2000 p.2 : ℤ) : ℚ)).sum / l.length),
         JSNum.num (meanOverallSpec l)⟩ ∧
      (gradeDealer (dealsOfPairs l)).grade = letterOfScoreSpec (meanOverallSpec l) ∧
      (gradeDealer (dealsOfPairs l)).gradeDistribution =
        some ⟨((l.map fun p => letterOfScoreSpec (overallScoreSpec p.1 p.2)).count "A"),
              ((l.map fun p => letterOfScoreSpec (overallScoreSpec p.1 p.2)).count "B"),
              ((l.map fun p => letterOfScoreSpec (overallScoreSpec p.1 p.2)).count "C"),
              ((l.map fun p => letterOfScoreSpec (overallScoreSpec p.1 p.2)).count "D"),
              ((l.map fun p => letterOfScoreSpec (overallScoreSpec p.1 p.2)).count "F")⟩ ∧
      (gradeDealer (dealsOfPairs l)).dealGrades =
        some (l.map fun p => gradeDeal (JSNum.num p.1) (JSNum.num p.2))) ∧
    (gradeDeal (JSNum.num 0) (JSNum.num 0)).scores.overall = JSNum.num 100 ∧
    (gradeDeal (JSNum.num 1000) (JSNum.num 2000)).scores.overall = JSNum.num 0 ∧
    (gradeDealer (dealsOfPairs [(0, 0), (1000, 2000)])).averageScores.overall = JSNum.num 50 ∧
    (gradeDealer (dealsOfPairs [(0, 0), (1000, 2000)])).grade = "F" ∧
    (gradeDealer (dealsOfPairs [(0, 0), (1000, 2000)])).gradeDistribution =
      some ⟨1, 0, 0, 0, 1⟩ := by
  have hov1 : overallScoreSpec 0 0 = 100 := by
    unfold overallScoreSpec
    rw [categoryScoreSpec_eval 100 (by norm_num) (by norm_num) (by norm_num),
      categoryScoreSpec_eval 100 (by norm_num) (by norm_num) (by norm_num)]
    norm_num
  have hov2 : overallScoreSpec 1000 2000 = 0 := by
    unfold overallScoreSpec
    rw [categoryScoreSpec_eval_clamped (by norm_num), categoryScoreSpec_eval_clamped (by norm_num)]
    norm_num
  have hmean : meanOverallSpec [(0, 0), (1000, 2000)] = 50 := by
    unfold meanOverallSpec
    simp [hov1, hov2]
    norm_num
  have hA : letterOfScoreSpec 100 = "A" := by norm_num [letterOfScoreSpec]
  have hF : letterOfScoreSpec 0 = "F" := by norm_num [letterOfScoreSpec]
  obtain ⟨h1, h2, h3, h4, h5⟩ := gradeDealer_eq_spec [(0, 0), (1000, 2000)] (by simp)
  refine ⟨gradeDealer_eq_spec, ?_, ?_, ?_, ?_, ?_⟩
  · rw [gradeDeal_scores_eq_spec, hov1]
  · rw [gradeDeal_scores_eq_spec, hov2]
  · rw [h2]
    show JSNum.num (meanOverallSpec _) = JSNum.num 50
    rw [hmean]
  · rw [h3, hmean]
    norm_num [letterOfScoreSpec]
  · rw [h4]
    simp [hov1, hov2, hA, hF]

/-- C4 (witness): the aggregation statement instantiated at the deal list
[(0,0),(1000,2000)]. -/
theorem dealer_aggregation_means_histogram_witness :
    ([((0 : ℚ), (0 : ℚ)), ((1000 : ℚ), (2000 : ℚ))] ≠ []) ∧
    ((gradeDealer (dealsOfPairs [(0, 0), (1000, 2000)])).dealCount =
        [((0 : ℚ), (0 : ℚ)), ((1000 : ℚ), (2000 : ℚ))].length ∧
      (gradeDealer (dealsOfPairs [(0, 0), (1000, 2000)])).averageScores =
        ⟨JSNum.num (([((0 : ℚ), (0 : ℚ)), ((1000 : ℚ), (2000 : ℚ))].map
            fun p => ((categoryScoreSpec 1000 p.1 : ℤ) : ℚ)).sum /
            [((0 : ℚ), (0 : ℚ)), ((1000 : ℚ), (2000 : ℚ))].length),
         JSNum.num (([((0 : ℚ), (0 : ℚ)), ((1000 : ℚ), (2000 : ℚ))].map
            fun p => ((categoryScoreSpec 2000 p.2 : ℤ) : ℚ)).sum /
            [((0 : ℚ), (0 : ℚ)), ((1000 : ℚ), (2000 : ℚ))].length),
         JSNum.num (meanOverallSpec [(0, 0), (1000, 2000)])⟩ ∧
      (gradeDealer (dealsOfPairs [(0, 0), (1000, 2000)])).grade =
        letterOfScoreSpec (meanOverallSpec [(0, 0), (1000, 2000)]) ∧
      (gradeDealer (dealsOfPairs [(0, 0), (1000, 2000)])).gradeDistribution =
        some ⟨(([((0 : ℚ), (0 : ℚ)), ((1000 : ℚ), (2000 : ℚ))].map
                fun p => letterOfScoreSpec (overallScoreSpec p.1 p.2)).count "A"),
              (([((0 : ℚ), (0 : ℚ)), ((1000 : ℚ), (2000 : ℚ))].map
                fun p => letterOfScoreSpec (overallScoreSpec p.1 p.2)).count "B"),
              (([((0 : ℚ), (0 : ℚ)), ((1000 : ℚ), (2000 : ℚ))].map
                fun p => letterOfScoreSpec (overallScoreSpec p.1 p.2)).count "C"),
              (([((0 : ℚ), (0 : ℚ)), ((1000 : ℚ), (2000 : ℚ))].map
                fun p => letterOfScoreSpec (overallScoreSpec p.1 p.2)).count "D"),
              (([((0 : ℚ), (0 : ℚ)), ((1000 : ℚ), (2000 : ℚ))].map
                fun p => letterOfScoreSpec (overallScoreSpec p.1 p.2)).count "F")⟩ ∧
      (gradeDealer (dealsOfPairs [(0, 0), (1000, 2000)])).dealGrades =
        some ([((0 : ℚ), (0 : ℚ)), ((1000 : ℚ), (2000 : ℚ))].map
          fun p => gradeDeal (JSNum.num p.1) (JSNum.num p.2))) :=
  ⟨by simp, dealer_aggregation_means_histogram.1 _ (by simp)⟩

/-- C5: `getGradeFromScore` maps a score to A at ≥90, B at ≥80, C at ≥70,
D at ≥60 and F below; and `gradeDeal(500, 1000)` yields excessive score
50, illegitimate score 50, overall score 50 and overall letter F. -/
theorem overall_letter_bands_and_concrete_deal :
    (∀ s : ℚ, (getGradeFromScore (JSNum.num s)).grade = letterOfScoreSpec s) ∧
    (gradeDeal (JSNum.num 500) (JSNum.num 1000)).scores =
      ⟨JSNum.num 50, JSNum.num 50, JSNum.num 50⟩ ∧
    (gradeDeal (JSNum.num 500) (JSNum.num 1000)).overall.grade = "F" := by
  have he : categoryScoreSpec 1000 500 = 50 :=
    categoryScoreSpec_eval 50 (by norm_num) (by norm_num) (by norm_num)
  have hi : categoryScoreSpec 2000 1000 = 50 :=
    categoryScoreSpec_eval 50 (by norm_num) (by norm_num) (by norm_num)
  have hov : overallScoreSpec 500 1000 = 50 := by
    unfold overallScoreSpec
    rw [he, hi]
    norm_num
  refine ⟨getGradeFromScore_eq_spec, ?_, ?_⟩
  · rw [gradeDeal_scores_eq_spec, he, hi, hov]
    norm_num
  · rw [gradeDeal_overall_eq_spec, hov]
    norm_num [letterOfScoreSpec]

/-- C6: for each fee category, the category score never increases as the
fee amount increases over the non-negative amounts. -/
theorem category_score_antitone (ft : FeeType) (a1 a2 : ℚ) (h0 : 0 ≤ a1) (h12 : a1 < a2) :
    jsGe (getGradeScore (JSNum.num a1) ft) (getGradeScore (JSNum.num a2) ft) = true := by
  rw [getGradeScore_eq_spec, getGradeScore_eq_spec]
  have hc : 0 < ceilingOf ft := by cases ft <;> norm_num [ceilingOf]
  have hmono := categoryScoreSpec_antitone hc (le_of_lt h12)
  simp only [jsGe, decide_eq_true_eq]
  exact_mod_cast hmono

/-- C6 (witness): monotonicity at the excessive category with amounts
100 < 200. -/
theorem category_score_antitone_witness :
    (0 : ℚ) ≤ 100 ∧ (100 : ℚ) < 200 ∧
    jsGe (getGradeScore (JSNum.num 100) FeeType.excessive)
      (getGradeScore (JSNum.num 200) FeeType.excessive) = true :=
  ⟨by norm_num, by norm_num,
    category_score_antitone FeeType.excessive 100 200 (by norm_num) (by norm_num)⟩

/-- C7: for every non-negative amount, the per-category descriptive letter
is the grade whose fixed currency band contains the amount, with band
membership `min <= amount < max` (upper bounds exclusive, last band
unbounded above): excessive fees A on [0,450), B on [450,550), C on
[550,1248), D on [1248,12767), F at ≥12767; illegitimate fees A on
[0,451.50), B on [451.50,1231.25), C on [1231.25,2674.25), D on
[2674.25,19039.45), F at ≥19039.45. -/
theorem descriptive_letter_currency_bands (q : ℚ) (hq : 0 ≤ q) :
    (getGrade (JSNum.num q) FeeType.excessive).grade = excessiveBandSpec q ∧
    (getGrade (JSNum.num q) FeeType.illegitimate).grade = illegitimateBandSpec q := by
  constructor
  · rcases lt_or_le q 450 with h1 | h1
    · simp [getGrade, GRADING_THRESHOLDS, List.find?, criteriaMatch, jsGe, jsLtOpt,
        excessiveBandSpec, hq, h1]
    · rcases lt_or_le q 550 with h2 | h2
      · simp [getGrade, GRADING_THRESHOLDS, List.find?, criteriaMatch, jsGe, jsLtOpt,
          excessiveBandSpec, hq, h1, h2, show ¬ q < 450 from not_lt.mpr h1]
      · rcases lt_or_le q 1248 with h3 | h3
        · simp [getGrade, GRADING_THRESHOLDS, List.find?, criteriaMatch, jsGe, jsLtOpt,
            excessiveBandSpec, hq, h2, h3, show ¬ q < 450 from by linarith,
            show ¬ q < 550 from not_lt.mpr h2, show (450 : ℚ) ≤ q from by linarith]
        · rcases lt_or_le q 12767 with h4 | h4
          · simp [getGrade, GRADING_THRESHOLDS, List.find?, criteriaMatch, jsGe, jsLtOpt,
              excessiveBandSpec, hq, h3, h4, show ¬ q < 450 from by linarith,
              show ¬ q < 550 from by linarith, show ¬ q < 1248 from not_lt.mpr h3,
              show (450 : ℚ) ≤ q from by linarith, show (550 : ℚ) ≤ q from by linarith]
          · simp [getGrade, GRADING_THRESHOLDS, List.find?, criteriaMatch, jsGe, jsLtOpt,
              excessiveBandSpec, hq, h4, show ¬ q < 450 from by linarith,
              show ¬ q < 550 from by linarith, show ¬ q < 1248 from by linarith,
              show ¬ q < 12767 from not_lt.mpr h4, show (450 : ℚ) ≤ q from by linarith,
              show (550 : ℚ) ≤ q from by linarith, show (1248 : ℚ) ≤ q from by linarith]
  · rcases lt_or_le q 451.50 with h1 | h1
    · simp [getGrade, GRADING_THRESHOLDS, List.find?, criteriaMatch, jsGe, jsLtOpt,
        illegitimateBandSpec, hq, h1]
    · rcases lt_or_le q 1231.25 with h2 | h2
      · simp [getGrade, GRADING_THRESHOLDS, List.find?, criteriaMatch, jsGe, jsLtOpt,
          illegitimateBandSpec, hq, h1, h2, show ¬ q < 451.50 from not_lt.mpr h1]
      · rcases lt_or_le q 2674.25 with h3 | h3
        · simp [getGrade, GRADING_THRESHOLDS, List.find?, criteriaMatch, jsGe, jsLtOpt,
            illegitimateBandSpec, hq, h2, h3, show ¬ q < 451.50 from by linarith,
            show ¬ q < 1231.25 from not_lt.mpr h2, show (451.50 : ℚ) ≤ q from by linarith]
        · rcases lt_or_le q 19039.45 with h4 | h4
          · simp [getGrade, GRADING_THRESHOLDS, List.find?, criteriaMatch, jsGe, jsLtOpt,
              illegitimateBandSpec, hq, h3, h4, show ¬ q < 451.50 from by linarith,
              show ¬ q < 1231.25 from by linarith, show ¬ q < 2674.25 from not_lt.mpr h3,
              show (451.50 : ℚ) ≤ q from by linarith, show (1231.25 : ℚ) ≤ q from by linarith]
          · simp [getGrade, GRADING_THRESHOLDS, List.find?, criteriaMatch, jsGe, jsLtOpt,
              illegitimateBandSpec, hq, h4, show ¬ q < 451.50 from by linarith,
              show ¬ q < 1231.25 from by linarith, show ¬ q < 2674.25 from by linarith,
              show ¬ q < 19039.45 from not_lt.mpr h4, show (451.50 : ℚ) ≤ q from by linarith,
              show (1231.25 : ℚ) ≤ q from by linarith, show (2674.25 : ℚ) ≤ q from by linarith]

/-- C7 (witness): the band characterization at the amount 500 (excessive
band B, illegitimate band B). -/
theorem descriptive_letter_currency_bands_witness :
    (0 : ℚ) ≤ 500 ∧
    ((getGrade (JSNum.num 500) FeeType.excessive).grade = excessiveBandSpec 500 ∧
      (getGrade (JSNum.num 500) FeeType.illegitimate).grade = illegitimateBandSpec 500) :=
  ⟨by norm_num, descriptive_letter_currency_bands 500 (by norm_num)⟩

/-- C8: `gradeDealer([])` returns, as an ordinary (non-error) value, the
full "no data" sentinel object: grade "N/A", dealCount 0, zero average
scores, no averageFees/dealGrades/gradeDistribution properties, and the
no-eligible-deals explanation. -/
theorem dealer_empty_sentinel :
    gradeDealer [] =
      ⟨"N/A", "No Data", "#64748b", 0, ⟨JSNum.num 0, JSNum.num 0, JSNum.num 0⟩,
        none, none, none, "No analysis-stage deals available for grading"⟩ := by
  rfl

/-- C9: for every pair of non-negative fee totals, all three numeric
scores returned by `gradeDeal` are finite and lie in [0, 100]. -/
theorem deal_scores_in_range (a b : ℚ) (ha : 0 ≤ a) (hb : 0 ≤ b) :
    ∃ e i o : ℚ,
      (gradeDeal (JSNum.num a) (JSNum.num b)).scores = ⟨JSNum.num e, JSNum.num i, JSNum.num o⟩ ∧
      0 ≤ e ∧ e ≤ 100 ∧ 0 ≤ i ∧ i ≤ 100 ∧ 0 ≤ o ∧ o ≤ 100 := by
  obtain ⟨he0, he1⟩ := categoryScoreSpec_bounds (show (0:ℚ) < 1000 by norm_num) ha
  obtain ⟨hi0, hi1⟩ := categoryScoreSpec_bounds (show (0:ℚ) < 2000 by norm_num) hb
  refine ⟨categoryScoreSpec 1000 a, categoryScoreSpec 2000 b, overallScoreSpec a b,
    gradeDeal_scores_eq_spec a b, by exact_mod_cast he0, by exact_mod_cast he1,
    by exact_mod_cast hi0, by exact_mod_cast hi1, ?_, ?_⟩
  · unfold overallScoreSpec
    have h1 : (0 : ℚ) ≤ (categoryScoreSpec 1000 a : ℚ) := by exact_mod_cast he0
    have h2 : (0 : ℚ) ≤ (categoryScoreSpec 2000 b : ℚ) := by exact_mod_cast hi0
    nlinarith
  · unfold overallScoreSpec
    have h1 : (categoryScoreSpec 1000 a : ℚ) ≤ 100 := by exact_mod_cast he1
    have h2 : (categoryScoreSpec 2000 b : ℚ) ≤ 100 := by exact_mod_cast hi1
    nlinarith

/-- C9 (witness): the score bounds at the concrete input (500, 1000). -/
theorem deal_scores_in_range_witness :
    (0 : ℚ) ≤ 500 ∧ (0 : ℚ) ≤ 1000 ∧
    ∃ e i o : ℚ,
      (gradeDeal (JSNum.num 500) (JSNum.num 1000)).scores =
        ⟨JSNum.num e, JSNum.num i, JSNum.num o⟩ ∧
      0 ≤ e ∧ e ≤ 100 ∧ 0 ≤ i ∧ i ≤ 100 ∧ 0 ≤ o ∧ o ≤ 100 :=
  ⟨by norm_num, by norm_num, deal_scores_in_range 500 1000 (by norm_num) (by norm_num)⟩

/-- C10: on the negative amount -100 (with illegitimate total 0),
`gradeDeal` neither rejects the input nor treats it as zero: the excessive
score is 110 (the score formula is not clamped above), the descriptive
excessive letter falls through every band to the fallback "F", and
`scores.overall` is 104. -/
theorem negative_amount_unclamped_score :
    (gradeDeal (JSNum.num (-100)) (JSNum.num 0)).scores.excessive = JSNum.num 110 ∧
    jsGe (JSNum.num 110) (JSNum.num 100) = true ∧
    (gradeDeal (JSNum.num (-100)) (JSNum.num 0)).excessive.grade = "F" ∧
    (gradeDeal (JSNum.num (-100)) (JSNum.num 0)).scores.overall = JSNum.num 104 := by
  have he : categoryScoreSpec 1000 (-100) = 110 :=
    categoryScoreSpec_eval 110 (by norm_num) (by norm_num) (by norm_num)
  have hi : categoryScoreSpec 2000 0 = 100 :=
    categoryScoreSpec_eval 100 (by norm_num) (by norm_num) (by norm_num)
  have hov : overallScoreSpec (-100) 0 = 104 := by
    unfold overallScoreSpec
    rw [he, hi]
    norm_num
  refine ⟨?_, ?_, ?_, ?_⟩
  · rw [gradeDeal_scores_eq_spec, he]
    norm_num
  · norm_num [jsGe]
  · show (getGrade (JSNum.num (-100)) FeeType.excessive).grade = "F"
    simp [getGrade, GRADING_THRESHOLDS, List.find?, criteriaMatch, jsGe, jsLtOpt,
      show ¬ ((0 : ℚ) ≤ -100) from by norm_num, show ¬ ((450 : ℚ) ≤ -100) from by norm_num,
      show ¬ ((550 : ℚ) ≤ -100) from by norm_num, show ¬ ((1248 : ℚ) ≤ -100) from by norm_num,
      show ¬ ((12767 : ℚ) ≤ -100) from by norm_num]
  · rw [gradeDeal_scores_eq_spec, hov]

end Grading
